import Mathlib

/-!
Verification of the EyesOff detection-and-alert decision pipeline.

This file gives a shallow embedding of the core of the EyesOff repository:

* `DMState` and its operations embed `src/DetectionManager.py`
  (class `DetectionManager`): construction, `process_detection`,
  `_show_privacy_alert`, `_dismiss_alert`.
* `ThreadState` and its operations embed `src/core/manager.py`
  (class `DetectionManagerThread`): `__init__`, `_init_detection_manager`,
  `_process_detection`, `handle_user_dismissal`, the `detection_delay`
  clause of `update_settings`.

Wall-clock time (Python `time.time()`) is modelled as a rational number
passed explicitly to each operation that reads the clock.  Face counts are
natural numbers.  Signals emitted through the Qt signal objects are
modelled as explicit fields of a per-tick output record.
-/

/-- A RAISE or CLEAR alert-state transition produced by one tick
(the spec's `AlertTransition`). -/
inductive AlertTransition where
  | RAISE
  | CLEAR
deriving Repr, DecidableEq

/-- The settings-dictionary fields that the pipeline reads
(`src/core/manager.py` lines 124-131 and 155). -/
structure Settings where
  face_threshold : Nat
  debounce_time : Rat
  alert_duration : Option Rat
  alert_color : Nat × Nat × Nat
  alert_opacity : Rat
  alert_size : Nat × Nat
  alert_position : String
  enable_animations : Bool
deriving Repr, DecidableEq

/-- The Python boolean `face_count > threshold`
(`src/core/manager.py` line 156, `src/DetectionManager.py` line 80). -/
def thresholdBool (threshold face_count : Nat) : Bool :=
  decide (threshold < face_count)

/-- State of a `DetectionManager` object (`src/DetectionManager.py`,
`__init__` lines 15-59).  `dismiss_event_set` models the threading `Event`. -/
structure DMState where
  face_threshold : Nat
  debounce_time : Rat
  alert_duration : Option Rat
  alert_color : Nat × Nat × Nat
  alert_opacity : Rat
  alert_size : Nat × Nat
  alert_position : String
  enable_animations : Bool
  is_alert_showing : Bool
  last_state_change : Rat
  dismiss_event_set : Bool
deriving Repr, DecidableEq

/-- `DetectionManager.__init__` (`src/DetectionManager.py` lines 15-59).
The body only stores its arguments; the single computation is the clamp of
`alert_opacity` to `[0, 1]` (line 44).  There is no validation and no raise
path, so construction is a total function.  `now` is the `time.time()`
value stored into `last_state_change` (line 51). -/
def mkDetectionManager (face_threshold : Nat) (debounce_time : Rat)
    (alert_duration : Option Rat) (alert_color : Nat × Nat × Nat)
    (alert_opacity : Rat) (alert_size : Nat × Nat) (alert_position : String)
    (enable_animations : Bool) (now : Rat) : DMState :=
  { face_threshold := face_threshold
    debounce_time := debounce_time
    alert_duration := alert_duration
    alert_color := alert_color
    alert_opacity := max 0 (min 1 alert_opacity)
    alert_size := alert_size
    alert_position := alert_position
    enable_animations := enable_animations
    is_alert_showing := false
    last_state_change := now
    dismiss_event_set := false }

/-- Observable outcome of one `_show_privacy_alert` call: whether a
presentation (window/animation) was issued, whether an error was logged,
and whether an exception escaped the method. -/
structure ShowOutcome where
  presented : Bool
  error_logged : Bool
  propagated : Bool
deriving Repr, DecidableEq

/-- `DetectionManager._show_privacy_alert` (`src/DetectionManager.py`
lines 101-146).  If an alert is already showing the method returns at once
(lines 105-106).  Otherwise it sets `is_alert_showing := true`, clears
the dismiss event (lines 107-108) and presents the alert window;
`presentation_raises` says whether the presentation code raises.  The whole
body sits in a `try`/`except` (lines 103, 143-146) that logs the error and
forces `is_alert_showing := false`, so no exception propagates. -/
def DMState.showPrivacyAlert (dm : DMState) (presentation_raises : Bool) :
    DMState × ShowOutcome :=
  if dm.is_alert_showing then
    (dm, { presented := false, error_logged := false, propagated := false })
  else
    let dm1 : DMState := { dm with is_alert_showing := true, dismiss_event_set := false }
    if presentation_raises then
      ({ dm1 with is_alert_showing := false },
       { presented := false, error_logged := true, propagated := false })
    else
      (dm1, { presented := true, error_logged := false, propagated := false })

/-- `DetectionManager._dismiss_alert` (`src/DetectionManager.py`
lines 224-239).  Guarded by `if self.is_alert_showing`: when no alert is
showing the method does nothing.  The returned boolean records whether the
presentation-dismiss work (set event, animate out, destroy window) ran. -/
def DMState.dismissAlert (dm : DMState) : DMState × Bool :=
  if dm.is_alert_showing then
    ({ dm with dismiss_event_set := true, is_alert_showing := false }, true)
  else
    (dm, false)

/-- `DetectionManager.process_detection` (`src/DetectionManager.py`
lines 72-99).  This is the debounce-gated tick: if less than
`debounce_time` has elapsed since `last_state_change` the tick is a no-op.
The `Thread(target=self._show_privacy_alert).start()` on line 93 is
modelled synchronously as a successful `showPrivacyAlert` call. -/
def DMState.process_detection (dm : DMState) (face_count : Nat) (now : Rat) :
    DMState × Option AlertTransition :=
  let multiple_viewers_detected := thresholdBool dm.face_threshold face_count
  let time_since_change := now - dm.last_state_change
  if time_since_change < dm.debounce_time then
    (dm, none)
  else if multiple_viewers_detected && !dm.is_alert_showing then
    ((DMState.showPrivacyAlert { dm with last_state_change := now } false).1,
     some AlertTransition.RAISE)
  else if !multiple_viewers_detected && dm.is_alert_showing then
    ((DMState.dismissAlert { dm with last_state_change := now }).1,
     some AlertTransition.CLEAR)
  else
    (dm, none)

/-- Iterated `DetectionManager.process_detection` over a list of
`(face_count, time)` ticks, collecting the per-tick transitions. -/
def DMState.processList (dm : DMState) (ticks : List (Nat × Rat)) :
    DMState × List (Option AlertTransition) :=
  match ticks with
  | [] => (dm, [])
  | (fc, t) :: rest =>
    let p := DMState.process_detection dm fc t
    let q := DMState.processList p.1 rest
    (q.1, p.2 :: q.2)

/-- The statistics dictionary of `DetectionManagerThread`
(`src/core/manager.py` lines 61-67).  `face_counts` is the history
dictionary, modelled as an association list from face count to tally. -/
structure Stats where
  total_detections : Nat
  alert_count : Nat
  last_detection_time : Option Rat
  session_start_time : Option Rat
  face_counts : List (Nat × Nat)
deriving Repr, DecidableEq

/-- The freshly-initialized statistics (`src/core/manager.py` lines 61-67). -/
def initStats : Stats :=
  { total_detections := 0, alert_count := 0, last_detection_time := none,
    session_start_time := none, face_counts := [] }

/-- The face-count history update (`src/core/manager.py` lines 147-152):
increment the tally of `face_count` or insert it with tally 1. -/
def bumpFaceCount : List (Nat × Nat) → Nat → List (Nat × Nat)
  | [], k => [(k, 1)]
  | (k0, v) :: rest, k =>
    if k0 = k then (k0, v + 1) :: rest else (k0, v) :: bumpFaceCount rest k

/-- State of a `DetectionManagerThread` (`src/core/manager.py`,
`__init__` lines 32-67), restricted to the fields the detection pipeline
reads or writes.  `detection_manager` is `None` until
`_init_detection_manager` runs and again after `_cleanup`. -/
structure ThreadState where
  settings : Settings
  current_face_count : Nat
  detection_manager : Option DMState
  previous_face_count : Nat
  num_faces_last_alert : Nat
  consecutive_detections : Nat
  detection_delay_frames : Nat
  last_detection_state : Bool
  stats : Stats
deriving Repr, DecidableEq

/-- `DetectionManagerThread.__init__` (`src/core/manager.py` lines 32-67):
face counts start at 0, no detection manager yet, `consecutive_detections = 0`,
`detection_delay_frames = 6`, `last_detection_state = False`, zeroed stats. -/
def initThreadState (settings : Settings) : ThreadState :=
  { settings := settings
    current_face_count := 0
    detection_manager := none
    previous_face_count := 0
    num_faces_last_alert := 0
    consecutive_detections := 0
    detection_delay_frames := 6
    last_detection_state := false
    stats := initStats }

/-- `DetectionManagerThread._init_detection_manager`
(`src/core/manager.py` lines 119-135): constructs the inner
`DetectionManager` from the settings.  Since `DetectionManager.__init__`
has no raise path, the `except` branch (log + emit error, leaving
`detection_manager` as `None`) is unreachable. -/
def initDetectionManager (s : ThreadState) (now : Rat) : ThreadState :=
  { s with detection_manager := some (mkDetectionManager s.settings.face_threshold
      s.settings.debounce_time s.settings.alert_duration s.settings.alert_color
      s.settings.alert_opacity s.settings.alert_size s.settings.alert_position
      s.settings.enable_animations now) }

/-- The state at the top of `DetectionManagerThread.run`
(`src/core/manager.py` lines 80-94): `_init_detection_manager` has run and
`session_start_time` has been recorded, statistics otherwise fresh. -/
def threadStart (settings : Settings) (now : Rat) : ThreadState :=
  let s := initDetectionManager (initThreadState settings) now
  { s with stats := { s.stats with session_start_time := some now } }

/-- The signals emitted by one `_process_detection` tick, plus the derived
RAISE/CLEAR transition (the spec's `process(face_count) -> optional
AlertTransition`): `show_alert`, `dismiss_alert`, `alert_state_changed`
and the periodic `stats_updated` emission. -/
structure TickOutput where
  transition : Option AlertTransition
  show_alert : Bool
  dismiss_alert : Bool
  alert_state_changed : Option Bool
  stats_updated : Bool
deriving Repr, DecidableEq

/-- The output of a tick that returns early and emits nothing. -/
def TickOutput.quiet : TickOutput :=
  { transition := none, show_alert := false, dismiss_alert := false,
    alert_state_changed := none, stats_updated := false }

/-- `DetectionManagerThread._process_detection` (`src/core/manager.py`
lines 137-223), the tick the polling loop runs (line 106).  Early return
when `detection_manager` is `None` (lines 139-140); statistics update
(lines 143-152); threshold boolean (lines 155-156); consecutive-detection
confirmation (lines 169-175); reset of `num_faces_last_alert` below
threshold (lines 177-179); the raise/clear branches guarded by
`consecutive_detections >= detection_delay_frames` (lines 182-212);
`previous_face_count` update (line 215); periodic stats emission
(lines 218-219).  Note this method applies no debounce and never writes
the inner manager's `last_state_change`. -/
def processDetection (s : ThreadState) (face_count : Nat) (now : Rat) :
    ThreadState × TickOutput :=
  match s.detection_manager with
  | none => (s, TickOutput.quiet)
  | some dm =>
    let stats1 : Stats :=
      { s.stats with
        total_detections := s.stats.total_detections + 1
        last_detection_time := some now
        face_counts := bumpFaceCount s.stats.face_counts face_count }
    let multiple_viewers_detected := thresholdBool s.settings.face_threshold face_count
    let was_alert_showing := dm.is_alert_showing
    let face_count_increased := decide (s.previous_face_count < face_count)
    let consecutive :=
      if multiple_viewers_detected ≠ s.last_detection_state then 1
      else s.consecutive_detections + 1
    let last_state :=
      if multiple_viewers_detected ≠ s.last_detection_state then multiple_viewers_detected
      else s.last_detection_state
    let faces_last_alert := if multiple_viewers_detected then s.num_faces_last_alert else 0
    let stats_flag := decide (stats1.total_detections % 10 = 0)
    if s.detection_delay_frames ≤ consecutive then
      if multiple_viewers_detected && !was_alert_showing
          && (face_count_increased || decide (faces_last_alert = 0)) then
        ({ s with
            detection_manager := some { dm with is_alert_showing := true }
            num_faces_last_alert := face_count
            consecutive_detections := 0
            last_detection_state := last_state
            previous_face_count := face_count
            stats := { stats1 with alert_count := stats1.alert_count + 1 } },
         { transition := some AlertTransition.RAISE, show_alert := true,
           dismiss_alert := false, alert_state_changed := some true,
           stats_updated := stats_flag })
      else if !multiple_viewers_detected && was_alert_showing then
        ({ s with
            detection_manager := some { dm with is_alert_showing := false }
            num_faces_last_alert := 0
            consecutive_detections := consecutive
            last_detection_state := last_state
            previous_face_count := face_count
            stats := stats1 },
         { transition := some AlertTransition.CLEAR, show_alert := false,
           dismiss_alert := true, alert_state_changed := some false,
           stats_updated := stats_flag })
      else
        ({ s with
            detection_manager := some dm
            num_faces_last_alert := faces_last_alert
            consecutive_detections := consecutive
            last_detection_state := last_state
            previous_face_count := face_count
            stats := stats1 },
         { transition := none, show_alert := false, dismiss_alert := false,
           alert_state_changed := none, stats_updated := stats_flag })
    else
      ({ s with
          detection_manager := some dm
          num_faces_last_alert := faces_last_alert
          consecutive_detections := consecutive
          last_detection_state := last_state
          previous_face_count := face_count
          stats := stats1 },
       { transition := none, show_alert := false, dismiss_alert := false,
         alert_state_changed := none, stats_updated := stats_flag })

/-- `DetectionManagerThread.handle_user_dismissal` (`src/core/manager.py`
lines 225-235): unconditionally clears the inner manager's
`is_alert_showing` (when it exists), emits `alert_state_changed(False)`
(the returned boolean), and records
`num_faces_last_alert := current_face_count`.  The method has no guard on
whether an alert is showing. -/
def handleUserDismissal (s : ThreadState) : ThreadState × Bool :=
  let s1 :=
    match s.detection_manager with
    | none => s
    | some dm => { s with detection_manager := some { dm with is_alert_showing := false } }
  ({ s1 with num_faces_last_alert := s1.current_face_count }, true)

/-- Iterated `_process_detection` over a list of `(face_count, time)`
ticks, collecting the per-tick outputs in order. -/
def processList (s : ThreadState) (ticks : List (Nat × Rat)) :
    ThreadState × List TickOutput :=
  match ticks with
  | [] => (s, [])
  | (fc, t) :: rest =>
    let p := processDetection s fc t
    let q := processList p.1 rest
    (q.1, p.2 :: q.2)

/-- The `detection_delay` clause of `DetectionManagerThread.update_settings`
(`src/core/manager.py` lines 259-262): a seconds value is converted to a
frame count at an assumed 30 fps, floored to an integer and clamped to at
least 1. -/
def updateDetectionDelay (s : ThreadState) (delay_seconds : Rat) : ThreadState :=
  { s with detection_delay_frames := max 1 (delay_seconds * 30).floor.toNat }

/-- Length of the maximal suffix of `l` all of whose elements equal `b`:
how long the thresholded boolean has held the value `b`. -/
def trailingSame (l : List Bool) (b : Bool) : Nat :=
  (l.reverse.takeWhile (fun x => x == b)).length

/-- Number of RAISE transitions in a list of tick outputs. -/
def countRaises (outs : List TickOutput) : Nat :=
  (outs.filter (fun o => o.transition == some AlertTransition.RAISE)).length

/-- The confirmation counter value computed inside a tick
(`src/core/manager.py` lines 169-175): reset to 1 when the thresholded
boolean changed, incremented otherwise. -/
def tickConsecutive (s : ThreadState) (face_count : Nat) : Nat :=
  if thresholdBool s.settings.face_threshold face_count ≠ s.last_detection_state then 1
  else s.consecutive_detections + 1

/-- A concrete settings record used by concrete runs: the given threshold
and debounce, and the constructor defaults of `src/core/manager.py`
lines 124-131 for the remaining fields. -/
def mkSettings (threshold : Nat) (debounce : Rat) : Settings :=
  { face_threshold := threshold, debounce_time := debounce,
    alert_duration := none, alert_color := (0, 0, 255), alert_opacity := 8/10,
    alert_size := (600, 300), alert_position := "center",
    enable_animations := true }

/-- The per-tick thresholded booleans of a tick sequence. -/
def threshSeq (threshold : Nat) (ticks : List (Nat × Rat)) : List Bool :=
  ticks.map fun p => thresholdBool threshold p.1

/-- A concrete `DetectionManager` built with threshold 1, debounce 2 and
the remaining constructor defaults, at start time 0. -/
def exampleDM : DMState := mkDetectionManager 1 2 none (0, 0, 255) 1 (600, 300) "center" true 0

/-- One `_process_detection` tick never changes the settings, the
configured confirmation length, the presence of the inner manager, or the
thread's `current_face_count`. -/
lemma processDetection_preserves (s : ThreadState) (fc : Nat) (now : Rat) :
    (processDetection s fc now).1.settings = s.settings ∧
    (processDetection s fc now).1.detection_delay_frames = s.detection_delay_frames ∧
    (processDetection s fc now).1.detection_manager.isSome = s.detection_manager.isSome ∧
    (processDetection s fc now).1.current_face_count = s.current_face_count := by
  unfold processDetection
  cases h : s.detection_manager with
  | none => simp [h]
  | some dm => simp only []; split_ifs <;> simp [h]

/-- After a tick with the inner manager present, `last_detection_state`
equals the tick's thresholded boolean and the stored confirmation counter
is at most the value computed inside the tick (the raise branch resets it
to 0). -/
lemma processDetection_last_state (s : ThreadState) (dm : DMState) (fc : Nat) (now : Rat)
    (hdm : s.detection_manager = some dm) :
    (processDetection s fc now).1.last_detection_state =
      thresholdBool s.settings.face_threshold fc ∧
    (processDetection s fc now).1.consecutive_detections ≤ tickConsecutive s fc := by
  unfold processDetection tickConsecutive
  rw [hdm]
  simp only []
  by_cases hb : thresholdBool s.settings.face_threshold fc = s.last_detection_state
  · simp only [hb, ne_eq, not_true_eq_false, if_false]
    split_ifs <;> simp [hb]
  · simp only [ne_eq, hb, not_false_eq_true, if_true]
    split_ifs <;> simp

/-- A tick that produces a transition passed the confirmation gate: the
configured confirmation length is at most the in-tick counter value. -/
lemma processDetection_gate (s : ThreadState) (fc : Nat) (now : Rat)
    (h : ((processDetection s fc now).2.transition).isSome = true) :
    s.detection_delay_frames ≤ tickConsecutive s fc := by
  unfold processDetection tickConsecutive at *
  cases hdm : s.detection_manager with
  | none => rw [hdm] at h; simp [TickOutput.quiet] at h
  | some dm =>
    rw [hdm] at h
    simp only [] at h
    by_cases hgate : s.detection_delay_frames ≤
        (if thresholdBool s.settings.face_threshold fc ≠ s.last_detection_state then 1
         else s.consecutive_detections + 1)
    · exact hgate
    · rw [if_neg hgate] at h
      simp at h

/-- A tick whose in-tick confirmation counter is below the configured
length produces no transition and leaves the alert flag unchanged. -/
lemma processDetection_below_delay (s : ThreadState) (fc : Nat) (now : Rat)
    (h : tickConsecutive s fc < s.detection_delay_frames) :
    (processDetection s fc now).2.transition = none ∧
    (processDetection s fc now).1.detection_manager.map DMState.is_alert_showing =
      s.detection_manager.map DMState.is_alert_showing := by
  unfold processDetection
  unfold tickConsecutive at h
  cases hdm : s.detection_manager with
  | none => simp [hdm, TickOutput.quiet]
  | some dm =>
    simp only []
    rw [if_neg (by omega)]
    simp [hdm]

/-- Appending `b` to a boolean list extends its trailing run of `b` by one. -/
lemma trailingSame_append (bs : List Bool) (b : Bool) :
    trailingSame (bs ++ [b]) b = trailingSame bs b + 1 := by
  simp [trailingSame, List.takeWhile]

/-- If the stored counter is bounded by the trailing run of the current
detection state, the in-tick counter is bounded by the trailing run after
this tick's boolean is appended. -/
lemma tickConsecutive_le_trailing (s : ThreadState) (fc : Nat) (bs : List Bool)
    (hinv : s.consecutive_detections ≤ trailingSame bs s.last_detection_state) :
    tickConsecutive s fc ≤
      trailingSame (bs ++ [thresholdBool s.settings.face_threshold fc])
        (thresholdBool s.settings.face_threshold fc) := by
  unfold tickConsecutive
  by_cases hb : thresholdBool s.settings.face_threshold fc = s.last_detection_state
  · rw [if_neg (by simp [hb]), trailingSame_append]
    rw [← hb] at hinv
    omega
  · rw [if_pos (by simp [hb]), trailingSame_append]
    omega

/-- `processList` preserves settings, confirmation length and manager
presence. -/
lemma processList_preserves (ticks : List (Nat × Rat)) (s : ThreadState) :
    (processList s ticks).1.settings = s.settings ∧
    (processList s ticks).1.detection_delay_frames = s.detection_delay_frames ∧
    (processList s ticks).1.detection_manager.isSome = s.detection_manager.isSome := by
  induction ticks generalizing s with
  | nil => simp [processList]
  | cons tk rest ih =>
    obtain ⟨fc, t⟩ := tk
    have h1 := processDetection_preserves s fc t
    have h2 := ih (processDetection s fc t).1
    simp only [processList]
    exact ⟨h2.1.trans h1.1, h2.2.1.trans h1.2.1, h2.2.2.trans h1.2.2.1⟩

/-- Invariant: along any run with the inner manager present, the stored
confirmation counter never exceeds the length of the trailing run of
equal thresholded booleans. -/
lemma processList_consecutive_inv (ticks : List (Nat × Rat)) (s : ThreadState) (bs : List Bool)
    (hsome : s.detection_manager.isSome = true)
    (hinv : s.consecutive_detections ≤ trailingSame bs s.last_detection_state) :
    (processList s ticks).1.consecutive_detections ≤
      trailingSame (bs ++ threshSeq s.settings.face_threshold ticks)
        (processList s ticks).1.last_detection_state := by
  induction ticks generalizing s bs with
  | nil => simpa [processList, threshSeq] using hinv
  | cons tk rest ih =>
    obtain ⟨fc, t⟩ := tk
    obtain ⟨dm, hdm⟩ := Option.isSome_iff_exists.mp hsome
    have hpres := processDetection_preserves s fc t
    have hls := processDetection_last_state s dm fc t hdm
    have hsome1 : (processDetection s fc t).1.detection_manager.isSome = true := by
      rw [hpres.2.2.1]; exact hsome
    have hstep : (processDetection s fc t).1.consecutive_detections ≤
        trailingSame (bs ++ [thresholdBool s.settings.face_threshold fc])
          (processDetection s fc t).1.last_detection_state := by
      rw [hls.1]
      exact hls.2.trans (tickConsecutive_le_trailing s fc bs hinv)
    have hrec := ih (processDetection s fc t).1 (bs ++ [thresholdBool s.settings.face_threshold fc])
      hsome1 hstep
    rw [hpres.1] at hrec
    simpa [processList, threshSeq, List.append_assoc] using hrec

/-- One tick adds 1 to `total_detections` and adds 1 to `alert_count`
exactly when the tick produced a RAISE transition. -/
lemma processDetection_stats (s : ThreadState) (dm : DMState) (fc : Nat) (now : Rat)
    (hdm : s.detection_manager = some dm) :
    (processDetection s fc now).1.stats.total_detections = s.stats.total_detections + 1 ∧
    (processDetection s fc now).1.stats.alert_count =
      s.stats.alert_count +
        (if (processDetection s fc now).2.transition = some AlertTransition.RAISE
          then 1 else 0) := by
  unfold processDetection
  rw [hdm]
  simp only []
  split_ifs <;> simp_all

/-- Over any run with the inner manager present, `total_detections` grows
by the number of ticks and `alert_count` by the number of RAISE
transitions. -/
lemma processList_stats (ticks : List (Nat × Rat)) (s : ThreadState)
    (hsome : s.detection_manager.isSome = true) :
    (processList s ticks).1.stats.total_detections =
      s.stats.total_detections + ticks.length ∧
    (processList s ticks).1.stats.alert_count =
      s.stats.alert_count + countRaises (processList s ticks).2 := by
  induction ticks generalizing s with
  | nil => simp [processList, countRaises]
  | cons tk rest ih =>
    obtain ⟨fc, t⟩ := tk
    obtain ⟨dm, hdm⟩ := Option.isSome_iff_exists.mp hsome
    have hstep := processDetection_stats s dm fc t hdm
    have hsome1 : (processDetection s fc t).1.detection_manager.isSome = true := by
      rw [(processDetection_preserves s fc t).2.2.1]; exact hsome
    have hrec := ih (processDetection s fc t).1 hsome1
    simp only [processList, countRaises, List.countP_cons]
    constructor
    · rw [hrec.1, hstep.1]
      simp [Nat.add_comm, Nat.add_assoc, Nat.add_left_comm]
    · rw [hrec.2, hstep.2]
      by_cases hr : (processDetection s fc t).2.transition = some AlertTransition.RAISE
      · simp [countRaises, hr]
        omega
      · simp [countRaises, hr]

/-- C1 (amended): the debounce gate exists only in
`DetectionManager.process_detection`.  There, a tick arriving less than
`debounce_time` after `last_state_change` returns no transition and leaves
the state unchanged; consequently any sequence of ticks all falling inside
the debounce window of the last state change produces no transition at
all.  (The thread's `_process_detection`, which the polling loop actually
runs, applies no debounce — see the counterexample.) -/
theorem c1_amended :
    (∀ (dm : DMState) (face_count : Nat) (now : Rat),
        now - dm.last_state_change < dm.debounce_time →
        DMState.process_detection dm face_count now = (dm, none)) ∧
    (∀ (dm : DMState) (ticks : List (Nat × Rat)),
        (∀ p ∈ ticks, p.2 - dm.last_state_change < dm.debounce_time) →
        DMState.processList dm ticks = (dm, ticks.map fun _ => none)) := by
  have gate : ∀ (dm : DMState) (fc : Nat) (now : Rat),
      now - dm.last_state_change < dm.debounce_time →
      DMState.process_detection dm fc now = (dm, none) := by
    intro dm fc now h
    unfold DMState.process_detection
    rw [if_pos h]
  refine ⟨gate, ?_⟩
  intro dm ticks
  induction ticks with
  | nil => intro h; simp [DMState.processList]
  | cons tk rest ih =>
    intro h
    obtain ⟨fc, t⟩ := tk
    have h1 := gate dm fc t (h (fc, t) (List.mem_cons_self _ _))
    have hrest := ih fun p hp => h p (List.mem_cons_of_mem _ hp)
    simp only [DMState.processList, h1, hrest]
    simp

/-- C1 witness: with debounce 2 and `last_state_change = 0`, the tick at
time 1 with face count 5 is a no-op of `DetectionManager.process_detection`. -/
theorem c1_witness :
    DMState.process_detection exampleDM 5 1 = (exampleDM, none) :=
  c1_amended.1 exampleDM 5 1 (by
    show (1 : Rat) - 0 < 2
    norm_num)

/-- C1 counterexample: in the thread's `_process_detection` (threshold 1,
`debounce_time` 1, confirmation length 1, started at time 0), the ticks at
times 0 and 1/20 — both within the debounce window of the initial
`last_state_change` and 1/20 apart — produce a RAISE and then a CLEAR:
two state transitions within the debounce window. -/
theorem c1_counterexample :
    (mkSettings 1 1).debounce_time = 1 ∧
    (processList { threadStart (mkSettings 1 1) 0 with detection_delay_frames := 1 }
        [(2, 0), (0, 1/20)]).2.map TickOutput.transition =
      [some AlertTransition.RAISE, some AlertTransition.CLEAR] ∧
    (1 : Rat)/20 - 0 < 1 := by
  refine ⟨rfl, by decide, by norm_num⟩

/-- C2: a transition occurs on a tick only if the thresholded boolean has
held the same value for at least `detection_delay_frames` consecutive
ticks up to and including that tick (first conjunct: starting from any
state with the counter at 0 and the manager initialized, a transition
after processing `pre` and then the tick `(fc, now)` implies the trailing
run of equal booleans has length at least `detection_delay_frames`);
and while the in-tick consecutive count is below `detection_delay_frames`
the tick returns no transition and leaves the alert state unchanged
(second conjunct). -/
theorem c2_confirmation_gate :
    (∀ (s0 : ThreadState) (pre : List (Nat × Rat)) (fc : Nat) (now : Rat),
        s0.detection_manager.isSome = true →
        s0.consecutive_detections = 0 →
        ((processDetection (processList s0 pre).1 fc now).2.transition).isSome = true →
        s0.detection_delay_frames ≤
          trailingSame
            (threshSeq s0.settings.face_threshold pre ++
              [thresholdBool s0.settings.face_threshold fc])
            (thresholdBool s0.settings.face_threshold fc)) ∧
    (∀ (s : ThreadState) (fc : Nat) (now : Rat),
        tickConsecutive s fc < s.detection_delay_frames →
        (processDetection s fc now).2.transition = none ∧
        (processDetection s fc now).1.detection_manager.map DMState.is_alert_showing =
          s.detection_manager.map DMState.is_alert_showing) := by
  constructor
  · intro s0 pre fc now hsome hzero htr
    have hpl := processList_preserves pre s0
    have hinv := processList_consecutive_inv pre s0 [] hsome (by simp [trailingSame, hzero])
    have hgate := processDetection_gate (processList s0 pre).1 fc now htr
    have hstep := tickConsecutive_le_trailing (processList s0 pre).1 fc
      (threshSeq s0.settings.face_threshold pre) (by simpa using hinv)
    rw [hpl.1] at hstep
    rw [hpl.2.1] at hgate
    exact hgate.trans hstep
  · intro s fc now h
    exact processDetection_below_delay s fc now h

/-- C2 witness: with the default confirmation length 6, the RAISE on the
sixth consecutive above-threshold tick certifies a trailing run of length
at least 6, and the very first above-threshold tick is a no-op. -/
theorem c2_witness :
    6 ≤ trailingSame (threshSeq 1 [(2, 0), (2, 1), (2, 2), (2, 3), (2, 4)] ++
          [thresholdBool 1 2]) (thresholdBool 1 2) ∧
    (processDetection (threadStart (mkSettings 1 1) 0) 2 0).2.transition = none := by
  constructor
  · exact c2_confirmation_gate.1 (threadStart (mkSettings 1 1) 0)
      [(2, 0), (2, 1), (2, 2), (2, 3), (2, 4)] 2 5 (by decide) (by decide) (by decide)
  · exact (c2_confirmation_gate.2 (threadStart (mkSettings 1 1) 0) 2 0 (by decide)).1

/-- C3: after a user dismissal recorded `num_faces_last_alert = N` (with
the count never having dropped to or below the threshold, so
`last_detection_state` is still true), a subsequent confirmed tick again
reporting `N` raises no new alert and leaves the alert hidden, while a
subsequent confirmed tick reporting `N + 1` raises a new alert. -/
theorem c3_refire (s : ThreadState) (dm : DMState) (N : Nat) (now1 now2 : Rat)
    (hdm : s.detection_manager = some dm)
    (hcur : s.current_face_count = N)
    (hprev : s.previous_face_count = N)
    (hthr : s.settings.face_threshold < N)
    (hlast : s.last_detection_state = true)
    (hconf : s.detection_delay_frames ≤ s.consecutive_detections + 1) :
    (processDetection (handleUserDismissal s).1 N now1).2.transition = none ∧
    (processDetection (handleUserDismissal s).1 N now1).1.detection_manager.map
        DMState.is_alert_showing = some false ∧
    (processDetection (handleUserDismissal s).1 (N + 1) now2).2.transition =
      some AlertTransition.RAISE := by
  have hs1 : (handleUserDismissal s).1 =
      { s with detection_manager := some { dm with is_alert_showing := false },
               num_faces_last_alert := N } := by
    simp [handleUserDismissal, hdm, hcur]
  have hbN : thresholdBool s.settings.face_threshold N = true := by
    simp [thresholdBool, hthr]
  have hbN1 : thresholdBool s.settings.face_threshold (N + 1) = true := by
    simp [thresholdBool]
    omega
  have hN0 : N ≠ 0 := by omega
  rw [hs1]
  unfold processDetection
  simp only [hbN, hbN1, hlast, hprev, hconf, hN0, ne_eq, not_true_eq_false, if_false,
    Bool.not_true, Bool.and_false, Bool.false_and, if_true, decide_eq_true_eq]
  simp [hconf, hN0, Nat.lt_irrefl]

/-- C3 witness: threshold 1, alert context at count 2, user dismissal;
the next confirmed tick at count 2 is a no-op and the next confirmed tick
at count 3 raises. -/
theorem c3_witness :
    (processDetection (handleUserDismissal { threadStart (mkSettings 1 1) 0 with
        current_face_count := 2, previous_face_count := 2,
        last_detection_state := true, consecutive_detections := 5 }).1 2 0).2.transition =
      none ∧
    (processDetection (handleUserDismissal { threadStart (mkSettings 1 1) 0 with
        current_face_count := 2, previous_face_count := 2,
        last_detection_state := true, consecutive_detections := 5 }).1 3 0).2.transition =
      some AlertTransition.RAISE := by
  have h := c3_refire
    { threadStart (mkSettings 1 1) 0 with
      current_face_count := 2, previous_face_count := 2,
      last_detection_state := true, consecutive_detections := 5 }
    (mkDetectionManager 1 1 none (0, 0, 255) (8/10) (600, 300) "center" true 0)
    2 0 0 rfl rfl rfl (by decide) rfl (by decide)
  exact ⟨h.1, h.2.2⟩

/-- C4: with threshold 1, debounce 0 and confirmation length 1, the tick
sequence of face counts [0,0,2,2,2,1,1,0] produces exactly a RAISE on the
third tick and a CLEAR on the sixth tick; every other tick produces no
transition. -/
theorem c4_concrete_scenario :
    (processList { threadStart (mkSettings 1 0) 0 with detection_delay_frames := 1 }
        [(0, 0), (0, 1), (2, 2), (2, 3), (2, 4), (1, 5), (1, 6), (0, 7)]).2.map
        TickOutput.transition =
      [none, none, some AlertTransition.RAISE, none, none, some AlertTransition.CLEAR,
        none, none] := by
  decide

/-- C5 (amended): whenever the alert is showing and `face_count` is at or
below the threshold and the in-tick confirmation counter has reached
`detection_delay_frames`, the tick produces a CLEAR transition, emits the
dismiss signal, hides the alert and resets `num_faces_last_alert` to 0 —
but it updates no state-change timestamp: the inner manager's
`last_state_change` is left untouched by the thread path. -/
theorem c5_amended (s : ThreadState) (dm : DMState) (face_count : Nat) (now : Rat)
    (hdm : s.detection_manager = some dm)
    (hshow : dm.is_alert_showing = true)
    (hle : face_count ≤ s.settings.face_threshold)
    (hconf : s.detection_delay_frames ≤ tickConsecutive s face_count) :
    (processDetection s face_count now).2.transition = some AlertTransition.CLEAR ∧
    (processDetection s face_count now).2.dismiss_alert = true ∧
    (processDetection s face_count now).1.detection_manager.map DMState.is_alert_showing =
      some false ∧
    (processDetection s face_count now).1.num_faces_last_alert = 0 ∧
    (processDetection s face_count now).1.detection_manager.map DMState.last_state_change =
      some dm.last_state_change := by
  have hb : thresholdBool s.settings.face_threshold face_count = false := by
    simp [thresholdBool]
    omega
  unfold tickConsecutive at hconf
  rw [hb] at hconf
  unfold processDetection
  rw [hdm]
  simp only [hb, hshow, Bool.false_and, Bool.and_true, Bool.not_false, Bool.true_and,
    Bool.not_true, Bool.and_false, if_false, ite_false]
  rw [if_pos hconf]
  simp

/-- C5 witness: with the alert showing and confirmation length 1, a tick
at count 1 (at threshold 1) clears. -/
theorem c5_witness :
    (processDetection { threadStart (mkSettings 1 1) 0 with
        detection_manager := some { exampleDM with is_alert_showing := true },
        detection_delay_frames := 1 } 1 3).2.transition =
      some AlertTransition.CLEAR := by
  have h := c5_amended
    { threadStart (mkSettings 1 1) 0 with
      detection_manager := some { exampleDM with is_alert_showing := true },
      detection_delay_frames := 1 }
    { exampleDM with is_alert_showing := true } 1 3 rfl rfl (by decide) (by decide)
  exact h.1

/-- C5 counterexample: a RAISE at time 5 followed by a confirmed
below-threshold tick at time 6 does CLEAR, hide the alert and reset
`num_faces_last_alert`, but the inner manager's `last_state_change` is
still its initial value 0, not the tick time 6: the claim's
"`last_state_change_time` is updated to the current time" clause fails. -/
theorem c5_counterexample :
    (processList { threadStart (mkSettings 1 1) 0 with detection_delay_frames := 1 }
        [(2, 5), (0, 6)]).2.map TickOutput.transition =
      [some AlertTransition.RAISE, some AlertTransition.CLEAR] ∧
    (processList { threadStart (mkSettings 1 1) 0 with detection_delay_frames := 1 }
        [(2, 5), (0, 6)]).1.detection_manager.map DMState.is_alert_showing = some false ∧
    (processList { threadStart (mkSettings 1 1) 0 with detection_delay_frames := 1 }
        [(2, 5), (0, 6)]).1.num_faces_last_alert = 0 ∧
    (processList { threadStart (mkSettings 1 1) 0 with detection_delay_frames := 1 }
        [(2, 5), (0, 6)]).1.detection_manager.map DMState.last_state_change = some 0 ∧
    (0 : Rat) ≠ 6 := by
  refine ⟨by decide, by decide, by decide, by decide, by norm_num⟩

/-- C6 (amended): `_show_privacy_alert` while the alert is already showing
is a no-op with no presentation call, and `_dismiss_alert` while no alert
is showing is a no-op with no presentation call; but user dismissal
(`handle_user_dismissal`) is unguarded: it always overwrites
`num_faces_last_alert` with `current_face_count` and always emits
`alert_state_changed(False)`, even when no alert is showing. -/
theorem c6_amended :
    (∀ (dm : DMState) (raises : Bool), dm.is_alert_showing = true →
        DMState.showPrivacyAlert dm raises =
          (dm, { presented := false, error_logged := false, propagated := false })) ∧
    (∀ dm : DMState, dm.is_alert_showing = false →
        DMState.dismissAlert dm = (dm, false)) ∧
    (∀ s : ThreadState,
        (handleUserDismissal s).1.num_faces_last_alert = s.current_face_count ∧
        (handleUserDismissal s).2 = true) := by
  refine ⟨?_, ?_, ?_⟩
  · intro dm raises h
    simp [DMState.showPrivacyAlert, h]
  · intro dm h
    simp [DMState.dismissAlert, h]
  · intro s
    cases h : s.detection_manager <;> simp [handleUserDismissal, h]

/-- C6 witness: show-while-showing and dismiss-while-hidden are no-ops at
a concrete manager state, and user dismissal records the current count. -/
theorem c6_witness :
    DMState.showPrivacyAlert { exampleDM with is_alert_showing := true } true =
      ({ exampleDM with is_alert_showing := true },
        { presented := false, error_logged := false, propagated := false }) ∧
    DMState.dismissAlert exampleDM = (exampleDM, false) ∧
    (handleUserDismissal (threadStart (mkSettings 1 1) 0)).1.num_faces_last_alert =
      (threadStart (mkSettings 1 1) 0).current_face_count :=
  ⟨c6_amended.1 { exampleDM with is_alert_showing := true } true rfl,
   c6_amended.2.1 exampleDM rfl,
   (c6_amended.2.2 (threadStart (mkSettings 1 1) 0)).1⟩

/-- C6 counterexample: in a state where no alert is showing (the dismiss
guard condition already holds) with `current_face_count = 2` and
`num_faces_last_alert = 0`, user dismissal changes `num_faces_last_alert`
to 2 and emits the state-changed signal — not a no-op. -/
theorem c6_counterexample :
    ({ threadStart (mkSettings 1 1) 0 with
        current_face_count := 2 } : ThreadState).detection_manager.map
        DMState.is_alert_showing = some false ∧
    ({ threadStart (mkSettings 1 1) 0 with
        current_face_count := 2 } : ThreadState).num_faces_last_alert = 0 ∧
    (handleUserDismissal { threadStart (mkSettings 1 1) 0 with
        current_face_count := 2 }).1.num_faces_last_alert = 2 ∧
    (handleUserDismissal { threadStart (mkSettings 1 1) 0 with
        current_face_count := 2 }).2 = true := by
  decide

/-- C7: with no alert yet showing, if the presentation code inside
`_show_privacy_alert` raises, the exception never propagates out of the
method, the error is logged, and `is_alert_showing` ends up false — the
state cannot get stuck at showing after a presentation failure. -/
theorem c7_presentation_failure (dm : DMState) (raises : Bool)
    (h : dm.is_alert_showing = false) :
    (DMState.showPrivacyAlert dm raises).2.propagated = false ∧
    (raises = true →
      (DMState.showPrivacyAlert dm raises).2.error_logged = true ∧
      (DMState.showPrivacyAlert dm raises).1.is_alert_showing = false) := by
  cases raises <;> simp [DMState.showPrivacyAlert, h]

/-- C7 witness: a failing presentation on the concrete example manager is
caught, logged, and leaves the alert hidden. -/
theorem c7_witness :
    (DMState.showPrivacyAlert exampleDM true).2.propagated = false ∧
    (true = true →
      (DMState.showPrivacyAlert exampleDM true).2.error_logged = true ∧
      (DMState.showPrivacyAlert exampleDM true).1.is_alert_showing = false) :=
  c7_presentation_failure exampleDM true rfl

/-- C8 (amended): the `DetectionManager` constructor performs no
validation: any `face_threshold` (including values below 1) and any
`alert_duration` (including negative values) are stored unchanged — only
`alert_opacity` is clamped to [0, 1] — and `_init_detection_manager`
always produces an initialized manager, so the session starts regardless. -/
theorem c8_amended (t : Nat) (db : Rat) (dur : Option Rat) (color : Nat × Nat × Nat)
    (opacity : Rat) (size : Nat × Nat) (position : String) (anim : Bool) (now : Rat)
    (s : ThreadState) :
    (mkDetectionManager t db dur color opacity size position anim now).face_threshold = t ∧
    (mkDetectionManager t db dur color opacity size position anim now).debounce_time = db ∧
    (mkDetectionManager t db dur color opacity size position anim now).alert_duration = dur ∧
    (mkDetectionManager t db dur color opacity size position anim now).alert_opacity =
      max 0 (min 1 opacity) ∧
    (initDetectionManager s now).detection_manager.isSome = true := by
  simp [mkDetectionManager, initDetectionManager]

/-- C8 counterexample: starting a session with `face_threshold = 0 < 1`
succeeds — the manager is constructed and the invalid threshold is stored
as-is — and a negative `alert_duration` is likewise stored unchanged;
nothing is rejected or surfaced to the caller. -/
theorem c8_counterexample :
    (threadStart (mkSettings 0 1) 0).detection_manager.isSome = true ∧
    (threadStart (mkSettings 0 1) 0).detection_manager.map DMState.face_threshold =
      some 0 ∧
    (mkDetectionManager 1 1 (some (-5)) (0, 0, 255) 1 (600, 300) "center" true
      0).alert_duration = some (-5) := by
  refine ⟨by decide, by decide, rfl⟩

/-- C9: for every tick sequence processed from the freshly-initialized
session state, `total_detections` equals the number of ticks and
`alert_count` equals exactly the number of RAISE transitions produced
(so CLEAR and no-transition ticks never change `alert_count`). -/
theorem c9_stats (settings : Settings) (t0 : Rat) (ticks : List (Nat × Rat)) :
    (processList (threadStart settings t0) ticks).1.stats.total_detections =
      ticks.length ∧
    (processList (threadStart settings t0) ticks).1.stats.alert_count =
      countRaises (processList (threadStart settings t0) ticks).2 := by
  have h := processList_stats ticks (threadStart settings t0)
    (by simp [threadStart, initDetectionManager])
  simpa [threadStart, initThreadState, initStats, initDetectionManager] using h

/-- C10: a tick processed while the inner detection manager is `None`
returns immediately: the state is unchanged (no statistics update, no
counter update) and no transition or signal is produced. -/
theorem c10_uninitialized (s : ThreadState) (face_count : Nat) (now : Rat)
    (h : s.detection_manager = none) :
    processDetection s face_count now = (s, TickOutput.quiet) := by
  simp [processDetection, h]

/-- C10 witness: before `_init_detection_manager` runs, a tick with face
count 5 is a complete no-op. -/
theorem c10_witness :
    processDetection (initThreadState (mkSettings 1 1)) 5 0 =
      (initThreadState (mkSettings 1 1), TickOutput.quiet) :=
  c10_uninitialized (initThreadState (mkSettings 1 1)) 5 0 rfl
